import Mathlib

/-!
Verification of the cost-accounting and sync-lifecycle core of the
reverse-api-engineer repository, as a shallow embedding.

Embedded source files:
* src/reverse_api/pricing.py — the MODEL_PRICING table and calculate_cost.
  Python float rates are embedded as exact rationals, token counts as
  integers; a Python KeyError on a missing dict key is embedded as Option
  propagation (the call evaluates to none).
* src/reverse_api/base_engineer.py — the BaseEngineer run controller:
  start_sync, stop_sync, get_sync_status and _build_analysis_prompt.
  Collaborators imported from modules that are not part of the provided
  sources (FileSyncWatcher and get_available_directory from sync.py,
  generate_folder_name from utils.py, ClaudeUI from tui.py, MessageStore
  from messages.py, pathlib paths) are modelled from the specification,
  each marked in its doc comment.
-/

/-- A per-million-token rate entry of the pricing table (pricing.py lines
4-34). A Python dict entry may omit some of the five keys; an absent key is
none, and indexing an absent key raises KeyError, embedded below as Option
propagation. Rates are exact rationals. -/
structure RateEntry where
  input : Option ℚ
  output : Option ℚ
  cache_creation : Option ℚ
  cache_read : Option ℚ
  reasoning : Option ℚ
  deriving DecidableEq

/-- The "claude-sonnet-4-5" entry of MODEL_PRICING (pricing.py lines 5-11). -/
def claudeSonnet45 : RateEntry :=
  { input := some 3.00, output := some 15.00, cache_creation := some 3.75,
    cache_read := some 0.30, reasoning := some 15.00 }

/-- The "claude-opus-4-5" entry of MODEL_PRICING (pricing.py lines 12-18). -/
def claudeOpus45 : RateEntry :=
  { input := some 15.00, output := some 75.00, cache_creation := some 18.75,
    cache_read := some 1.50, reasoning := some 75.00 }

/-- The "claude-haiku-4-5" entry of MODEL_PRICING (pricing.py lines 19-25). -/
def claudeHaiku45 : RateEntry :=
  { input := some 1.00, output := some 5.00, cache_creation := some 1.25,
    cache_read := some 0.10, reasoning := some 5.00 }

/-- The "google-gemini-3-flash" entry of MODEL_PRICING (pricing.py lines
26-29): only input and output rates are present. -/
def geminiFlash : RateEntry :=
  { input := some 0.00015, output := some 0.0006, cache_creation := none,
    cache_read := none, reasoning := none }

/-- The "google-gemini-3-pro" entry of MODEL_PRICING (pricing.py lines
30-33): only input and output rates are present. -/
def geminiPro : RateEntry :=
  { input := some 0.0003, output := some 0.0012, cache_creation := none,
    cache_read := none, reasoning := none }

/-- The MODEL_PRICING dict (pricing.py lines 4-34) as an association list. -/
def MODEL_PRICING : List (String × RateEntry) :=
  [("claude-sonnet-4-5", claudeSonnet45),
   ("claude-opus-4-5", claudeOpus45),
   ("claude-haiku-4-5", claudeHaiku45),
   ("google-gemini-3-flash", geminiFlash),
   ("google-gemini-3-pro", geminiPro)]

/-- Dict lookup of an optional key: MODEL_PRICING has only string keys, so a
null model identifier is never a hit. -/
def pricingLookup (model_id : Option String) : Option RateEntry :=
  model_id.bind (fun s => MODEL_PRICING.lookup s)

/-- The resolution MODEL_PRICING.get(model_id, MODEL_PRICING["claude-sonnet-4-5"])
on pricing.py line 59: an absent or null key resolves to the sonnet entry. -/
def resolvePricing (model_id : Option String) : RateEntry :=
  (pricingLookup model_id).getD claudeSonnet45

/-- Embedding of calculate_cost (pricing.py lines 37-69). The body indexes
all five rate keys of the resolved entry unconditionally, in the order the
Python sum expression evaluates them, so a missing key aborts the whole
computation (KeyError, embedded as none) regardless of the token counts. -/
def calculate_cost (model_id : Option String)
    (input_tokens output_tokens cache_creation_tokens cache_read_tokens
      reasoning_tokens : ℤ) : Option ℚ :=
  let pricing := resolvePricing model_id
  do
    let rate_input ← pricing.input
    let rate_output ← pricing.output
    let rate_cache_creation ← pricing.cache_creation
    let rate_cache_read ← pricing.cache_read
    let rate_reasoning ← pricing.reasoning
    pure ((input_tokens : ℚ) / 1000000 * rate_input
      + (output_tokens : ℚ) / 1000000 * rate_output
      + (cache_creation_tokens : ℚ) / 1000000 * rate_cache_creation
      + (cache_read_tokens : ℚ) / 1000000 * rate_cache_read
      + (reasoning_tokens : ℚ) / 1000000 * rate_reasoning)

/-- Watcher lifecycle states. Modelled from the spec: the Sync Watcher code
(sync.py) is not under the provided sources; section 4.3 gives the states
idle, running and stopped. -/
inductive WatcherState where
  | idle
  | running
  | stopped
  deriving DecidableEq

/-- Notification-sink events. The ClaudeUI collaborator (tui.py) is not
under the provided sources; it is modelled as an append-only event log:
calls to sync_flash, sync_error and sync_started become events. -/
inductive UIEvent where
  | syncFlash (message : String)
  | syncError (message : String)
  | syncStarted (dir : String)
  deriving DecidableEq

/-- Modelled from the spec: the get_status snapshot of the Sync Watcher
(section 4.3) — current state, destination path, last-sync timestamp,
success count and error count. -/
structure SyncStatus where
  state : WatcherState
  dest_dir : String
  last_sync : Option Nat
  sync_count : Nat
  error_count : Nat
  deriving DecidableEq

/-- Modelled from the spec: the FileSyncWatcher collaborator (sync.py is not
under the provided sources). The fields mirror the constructor arguments
used by start_sync — source_dir, dest_dir, on_sync, on_error, debounce_ms —
plus the SyncSession state of sections 3 and 4.3. The callbacks are modelled
as the events they emit to the notification sink. -/
structure FileSyncWatcher where
  source_dir : String
  dest_dir : String
  on_sync : String → UIEvent
  on_error : String → UIEvent
  debounce_ms : Nat
  state : WatcherState
  last_sync : Option Nat
  sync_count : Nat
  error_count : Nat

/-- Modelled from the spec: FileSyncWatcher.start transitions a constructed
watcher into the running state (section 4.3). -/
def FileSyncWatcher.start (w : FileSyncWatcher) : FileSyncWatcher :=
  { w with state := WatcherState.running }

/-- Modelled from the spec: FileSyncWatcher.stop transitions to stopped; a
teardown failure (section 4.3, transient teardown error) is modelled by the
teardown_error argument — some msg means teardown raises with message msg. -/
def FileSyncWatcher.stop (teardown_error : Option String)
    (w : FileSyncWatcher) : Except String FileSyncWatcher :=
  match teardown_error with
  | some msg => Except.error msg
  | none => Except.ok { w with state := WatcherState.stopped }

/-- Modelled from the spec: FileSyncWatcher.get_status returns a snapshot
without mutating state (section 4.3). -/
def FileSyncWatcher.get_status (w : FileSyncWatcher) : SyncStatus :=
  { state := w.state, dest_dir := w.dest_dir, last_sync := w.last_sync,
    sync_count := w.sync_count, error_count := w.error_count }

/-- A pathlib path, modelled opaquely by its string rendering and the
string rendering of its parent (the only two observations the embedded
code makes of a path). -/
structure PyPath where
  str : String
  parent : String
  deriving DecidableEq

/-- The MessageStore collaborator (messages.py is not under the provided
sources); only its messages_path field is read, by the prompt builder. -/
structure MessageStore where
  messages_path : PyPath
  deriving DecidableEq

/-- State of a BaseEngineer run controller (base_engineer.py lines 16-42).
The ClaudeUI object is replaced by the event log ui_events; the
usage_metadata dict (opaque agent metadata) and the verbose flag are
omitted — no claim mentions them and no embedded operation reads them. -/
structure BaseEngineer where
  run_id : String
  har_path : PyPath
  prompt : String
  model : Option String
  additional_instructions : Option String
  scripts_dir : String
  message_store : MessageStore
  enable_sync : Bool
  sdk : String
  is_fresh : Bool
  sync_watcher : Option FileSyncWatcher
  local_scripts_dir : Option String
  ui_events : List UIEvent

/-- Modelled from the spec: the external collaborators start_sync calls
that are not under the provided sources — generate_folder_name (utils.py,
the section 4.2 name derivation) and get_available_directory (sync.py, the
section 4.2 Workspace Allocator) — plus the current working directory.
They are opaque functions of their inputs. -/
structure SyncEnv where
  cwd : String
  generate_folder_name : String → String → String
  get_available_directory : String → String → String

/-- Embedding of BaseEngineer.start_sync (base_engineer.py lines 44-73):
return unchanged when sync is disabled; otherwise derive a base name from
the goal text, allocate a destination under cwd/scripts, record it,
construct a FileSyncWatcher with debounce_ms 500 whose callbacks feed the
notification sink, start it, and announce it. -/
def start_sync (env : SyncEnv) (e : BaseEngineer) : BaseEngineer :=
  if !e.enable_sync then e
  else
    let base_name := env.generate_folder_name e.prompt e.sdk
    let scripts_base_path := env.cwd ++ "/scripts"
    let local_dir := env.get_available_directory scripts_base_path base_name
    let e := { e with local_scripts_dir := some local_dir }
    let watcher : FileSyncWatcher :=
      { source_dir := e.scripts_dir, dest_dir := local_dir,
        on_sync := fun message => UIEvent.syncFlash message,
        on_error := fun message => UIEvent.syncError message,
        debounce_ms := 500, state := WatcherState.idle,
        last_sync := none, sync_count := 0, error_count := 0 }
    let watcher := watcher.start
    { e with
      sync_watcher := some watcher,
      ui_events := e.ui_events ++ [UIEvent.syncStarted local_dir] }

/-- Embedding of BaseEngineer.stop_sync (base_engineer.py lines 75-83).
The try, except and finally clauses: a teardown error is forwarded to the
notification sink as a sync_error event and never propagated, and the
finally clause clears the held reference in both outcomes. -/
def stop_sync (teardown_error : Option String) (e : BaseEngineer) :
    BaseEngineer :=
  match e.sync_watcher with
  | none => e
  | some w =>
    match w.stop teardown_error with
    | Except.ok _ => { e with sync_watcher := none }
    | Except.error msg =>
      { e with
        ui_events := e.ui_events
          ++ [UIEvent.syncError ("Failed to stop sync watcher: " ++ msg)],
        sync_watcher := none }

/-- Embedding of BaseEngineer.get_sync_status (base_engineer.py lines
85-89), returning its value paired with the controller state it leaves
behind, to make the absence of mutation explicit. -/
def get_sync_status (e : BaseEngineer) : Option SyncStatus × BaseEngineer :=
  match e.sync_watcher with
  | some w => (some w.get_status, e)
  | none => (none, e)

/-- The Python rendering str(b).lower() of a bool. -/
def pyBoolLower (b : Bool) : String := if b then "true" else "false"
/-- Literal text of the base_prompt f-string of _build_analysis_prompt (base_engineer.py lines 93-210), with the three interpolated fields passed as arguments (har_path and scripts_dir interpolate as their string renderings). Braces, apostrophes and quotes of the source text are written with escape codes. -/
def basePromptText (har_path prompt scripts_dir : String) : String :=
  "You are tasked with analyzing a HAR (HTTP Archive) file to reverse engineer API calls,\n         and generate production-ready Python code that replicates those calls.\n\nHere is the HAR file path you need to analyze:\n<har_path>\n" ++ har_path ++ "\n</har_path>\n\nHere is the original user prompt with context about what they\x27re trying to accomplish:\n<user_prompt>\n" ++ prompt ++ "\n</user_prompt>\n\nHere is the output directory where you should save your generated files:\n<output_dir>\n" ++ scripts_dir ++ "\n</output_dir>\n\n**IMPORTANT: You have access to the AskUserQuestion tool to ask clarifying questions during your analysis.**\nUse this tool when you need to clarify functional requirements, prioritize features, choose between implementation approaches, or gather any other information that would help you generate better code.\n\nYour task is to:\n\n1. **Read and analyze the HAR file** to understand all API calls that were captured. Look for:\n   - HTTP methods (GET, POST, PUT, DELETE, etc.)\n   - Request URLs and endpoints\n   - Request headers (especially authentication-related ones)\n   - Request bodies and parameters\n   - Response structures\n   - Response status codes\n\n2. **Identify authentication patterns** such as:\n   - Cookies and session tokens\n   - Authorization headers (Bearer tokens, API keys, etc.)\n   - CSRF tokens or other security mechanisms\n   - Custom authentication headers\n\n3. **Extract request/response patterns** for each distinct endpoint:\n   - Required vs optional parameters\n   - Data formats (JSON, form data, etc.)\n   - Query parameters vs body parameters\n   - Response data structures\n\n4. **Ask clarifying questions using AskUserQuestion** if needed:\n   - When multiple authentication methods are found, ask which to prioritize\n   - If uncertain about feature priorities, ask the user\n   - When implementation approaches are ambiguous, ask for preferences\n   - Use the tool for any clarifications that would improve the final code\n\n5. **Generate a Python script** that replicates these API calls with the following requirements:\n   - Use the `requests` library as the default choice\n   - Include proper authentication handling (sessions, headers, tokens)\n   - Create separate functions for each distinct API endpoint\n   - Include type hints for all function parameters and return values\n   - Write comprehensive docstrings for each function\n   - Implement proper error handling with try-except blocks\n   - Add logging for debugging purposes\n   - Make the code production-ready and maintainable\n   - Include a main section with example usage\n\n6. **Create documentation**:\n   - Generate a README.md file that explains:\n     - What APIs were discovered\n     - How authentication works\n     - How to use each function\n     - Example usage\n     - Any limitations or requirements\n\n7. **Test your implementation**:\n   - After generating the code, test it to ensure it works\n   - You have up to 5 attempts to fix any issues\n   - If the initial implementation fails, analyze the error and try again\n   - Keep in mind that some websites have bot detection mechanisms\n\n8. **Handle bot detection**:\n   - If you encounter bot detection, CAPTCHA, or anti-scraping measures with `requests`\n   - Consider switching to Playwright with CDP (Chrome DevTools Protocol)\n   - Use the real user browser context to bypass detection\n   - Maintain the same code quality standards regardless of approach\n\nBefore generating your code, use a scratchpad to plan your approach:\n\n<scratchpad>\nIn your scratchpad:\n- Summarize the key API endpoints found in the HAR file\n- Note the authentication mechanism being used\n- Identify any patterns or commonalities between requests\n- Plan the structure of your Python script\n- Consider potential issues (rate limiting, bot detection, etc.)\n- Decide whether `requests` will be sufficient or if Playwright is needed\n- Identify any ambiguities or questions you should ask the user using AskUserQuestion\n</scratchpad>\n\nAfter your analysis, generate the files:\n\n1. Save the Python script to: " ++ scripts_dir ++ "/api_client.py\n2. Save the documentation to: " ++ scripts_dir ++ "/README.md\n\nIf your first attempt doesn\x27t work, analyze what went wrong and try again. Document each attempt and what you learned.\n\n<attempt_log>\nFor each attempt (up to 5), document:\n- Attempt number\n- What approach you tried\n- What error or issue occurred (if any)\n- What you changed for the next attempt\n</attempt_log>\n\nAfter testing, provide your final response with:\n- A summary of the APIs discovered\n- The authentication method used\n- Whether the implementation works\n- Any limitations or caveats\n- The paths to the generated files\n\nYour final output should confirm that the files have been created and provide a brief summary of what was accomplished.\nDo not include the full code in your response - just confirm the files were saved and summarize the key findings.\n"

/-- The sentence of the AskUserQuestion guidance announcing that the tool accepts a list of questions (base_engineer.py line 229). -/
def toolAcceptsLine : String := "The tool accepts a list of questions with the following structure:"

/-- The Question Structure block of the AskUserQuestion guidance (base_engineer.py lines 249-252): required question, optional header, required options of label and description entries, and multiSelect defaulting to false. -/
def questionStructureBlock : String := "- `question` (required): The question text\n- `header` (optional): Short category label for context\n- `options` (required): List of choices with labels and descriptions\n- `multiSelect` (optional): true for checkbox selection, false for single select (default: false)"

/-- The AskUserQuestion guidance literal before toolAcceptsLine. -/
def askGuidelinesPre : String := "\n\n## Interactive Clarification with AskUserQuestion\n\nYou have access to the `AskUserQuestion` tool to ask clarifying questions during analysis:\n\n<ask_user_question_guidelines>\nUse AskUserQuestion when uncertain about:\n- Functional requirements or expected behavior\n- Which features to prioritize\n- Implementation approach choices\n- API authentication details the user might know\n- Specific use cases or workflows to support\n\n"

/-- The AskUserQuestion guidance literal between toolAcceptsLine and questionStructureBlock. -/
def askGuidelinesMid : String := "\n\n```json\n\x7b\n  \"questions\": [\n    \x7b\n      \"question\": \"Which authentication should I prioritize?\",\n      \"header\": \"Authentication\",\n      \"options\": [\n        \x7b\"label\": \"Cookie-based session\", \"description\": \"Uses session cookies for auth\"\x7d,\n        \x7b\"label\": \"Bearer token\", \"description\": \"Uses JWT or API tokens\"\x7d,\n        \x7b\"label\": \"Both\", \"description\": \"Auto-detect and support both methods\"\x7d\n      ],\n      \"multiSelect\": false\n    \x7d\n  ]\n\x7d\n```\n\nQuestion Structure:\n"

/-- The AskUserQuestion guidance literal after questionStructureBlock. -/
def askGuidelinesPost : String := "\n\nExamples:\n\n1. Single-select question (authentication method):\n```json\n\x7b\n  \"questions\": [\x7b\n    \"question\": \"Which authentication method should I implement?\",\n    \"header\": \"Auth Method\",\n    \"options\": [\n      \x7b\"label\": \"Cookie-based\", \"description\": \"Session cookies\"\x7d,\n      \x7b\"label\": \"Bearer token\", \"description\": \"JWT tokens\"\x7d,\n      \x7b\"label\": \"Both\", \"description\": \"Support both methods\"\x7d\n    ],\n    \"multiSelect\": false\n  \x7d]\n\x7d\n```\n\n2. Multi-select question (features):\n```json\n\x7b\n  \"questions\": [\x7b\n    \"question\": \"Which features should I include?\",\n    \"header\": \"Features\",\n    \"options\": [\n      \x7b\"label\": \"Retry logic\", \"description\": \"Auto-retry failed requests\"\x7d,\n      \x7b\"label\": \"Rate limiting\", \"description\": \"Throttle requests\"\x7d,\n      \x7b\"label\": \"Caching\", \"description\": \"Cache responses\"\x7d\n    ],\n    \"multiSelect\": true\n  \x7d]\n\x7d\n```\n\n3. Multiple questions in one call:\n```json\n\x7b\n  \"questions\": [\n    \x7b\n      \"question\": \"Which authentication method?\",\n      \"header\": \"Auth\",\n      \"options\": [\n        \x7b\"label\": \"Cookies\", \"description\": \"Session-based\"\x7d,\n        \x7b\"label\": \"Tokens\", \"description\": \"Token-based\"\x7d\n      ],\n      \"multiSelect\": false\n    \x7d,\n    \x7b\n      \"question\": \"Which features to enable?\",\n      \"header\": \"Features\",\n      \"options\": [\n        \x7b\"label\": \"Retry\", \"description\": \"Auto-retry\"\x7d,\n        \x7b\"label\": \"Logging\", \"description\": \"Debug logs\"\x7d\n      ],\n      \"multiSelect\": true\n    \x7d\n  ]\n\x7d\n```\n\nGuidelines:\n- Ask 1-3 well-targeted questions that materially impact implementation\n- Always provide `options` with clear labels and descriptions\n- Use `multiSelect: true` when multiple options can be selected\n- Use meaningful `header` values to provide context\n- The user\x27s answers will be returned in the tool result\n</ask_user_question_guidelines>\n"

/-- The AskUserQuestion guidance appended to the prompt (base_engineer.py lines 215-321). The single source literal is written as a concatenation of five named pieces; the concatenated value is exactly the source literal. -/
def askUserQuestionGuidelines : String :=
  askGuidelinesPre ++ toolAcceptsLine ++ askGuidelinesMid ++ questionStructureBlock ++ askGuidelinesPost

/-- Literal text of the tag_context f-string of _build_analysis_prompt (base_engineer.py lines 323-342), with the five interpolated expressions passed as arguments. -/
def tagContextText (run_id har_parent scripts_dir messages_parent is_fresh_str : String) : String :=
  "\n## Tag-Based Workflows\n\nThis session uses tag-based context loading:\n\n- **@id <run_id>**: Re-engineer mode active\n  - Target run: " ++ run_id ++ "\n  - HAR location: " ++ har_parent ++ "\n  - Existing scripts: " ++ scripts_dir ++ "\n  - Message history: " ++ messages_parent ++ " (available for reference if needed)\n  - Fresh mode: " ++ is_fresh_str ++ "\n\nBy default, treat this as an iterative refinement. The user\x27s prompt describes\nchanges or improvements to make to the existing script. If fresh mode is enabled,\nignore previous implementation and start from scratch.\n\nNote: Full message history is available at the messages path above if you need\nto understand previous context, but it is not automatically loaded into this\nconversation.\n"


/-- Embedding of BaseEngineer._build_analysis_prompt (base_engineer.py
lines 91-343): the base prompt with interpolated paths, the optional
additional-instructions suffix (skipped for a null or empty string, the
falsy Python values), the AskUserQuestion guidance, and the tag context. -/
def _build_analysis_prompt (e : BaseEngineer) : String :=
  let base_prompt := basePromptText e.har_path.str e.prompt e.scripts_dir
  let base_prompt :=
    match e.additional_instructions with
    | some ai =>
      if ai.isEmpty then base_prompt
      else base_prompt ++ ("\n\nAdditional instructions:\n" ++ ai)
    | none => base_prompt
  let base_prompt := base_prompt ++ askUserQuestionGuidelines
  let tag_context := tagContextText e.run_id e.har_path.parent e.scripts_dir
    e.message_store.messages_path.parent (pyBoolLower e.is_fresh)
  base_prompt ++ tag_context

/-- A concrete environment for witness instantiations. -/
def sampleEnv : SyncEnv :=
  { cwd := "/home/user",
    generate_folder_name := fun goal sdk => goal ++ "-" ++ sdk,
    get_available_directory := fun parent base_name =>
      parent ++ "/" ++ base_name }

/-- A concrete controller state for witness instantiations: sync disabled,
nothing started. -/
def sampleEngineer : BaseEngineer :=
  { run_id := "run-1",
    har_path := { str := "/tmp/capture.har", parent := "/tmp" },
    prompt := "fetch the product list",
    model := none,
    additional_instructions := none,
    scripts_dir := "/runs/run-1/scripts",
    message_store :=
      { messages_path :=
        { str := "/runs/run-1/messages.json", parent := "/runs/run-1" } },
    enable_sync := false,
    sdk := "claude",
    is_fresh := false,
    sync_watcher := none,
    local_scripts_dir := none,
    ui_events := [] }

/-- A concrete running watcher for witness instantiations. -/
def sampleWatcher : FileSyncWatcher :=
  { source_dir := "/runs/run-1/scripts",
    dest_dir := "/home/user/scripts/fetch-the-product-list",
    on_sync := fun message => UIEvent.syncFlash message,
    on_error := fun message => UIEvent.syncError message,
    debounce_ms := 500, state := WatcherState.running,
    last_sync := none, sync_count := 0, error_count := 0 }

/-- A concrete controller holding a running watcher, for witness
instantiations. -/
def engineerWithWatcher : BaseEngineer :=
  { sampleEngineer with
    enable_sync := true,
    sync_watcher := some sampleWatcher }

/-- A concrete controller with sync enabled and nothing started, for
witness instantiations. -/
def enabledEngineer : BaseEngineer :=
  { sampleEngineer with enable_sync := true }

/-- C1: the claim fails on the code. calculate_cost applied to the known
model google-gemini-3-flash and a non-negative usage record does not return
normally: the body indexes the absent cache_creation rate of the resolved
entry, raising KeyError (embedded as none), instead of letting the absent
categories contribute zero as the claim states. -/
theorem calculate_cost_gemini_flash_raises :
    calculate_cost (some "google-gemini-3-flash") 1 2 3 4 5 = none := rfl

/-- C2: for every usage record, a model identifier absent from the pricing
table, or a null identifier, yields exactly the cost of the designated
fallback identifier claude-sonnet-4-5 on the same usage; the lookup never
fails. -/
theorem calculate_cost_unknown_model_fallback (model_id : Option String)
    (h : pricingLookup model_id = none)
    (a b c d e : ℤ) :
    calculate_cost model_id a b c d e
      = calculate_cost (some "claude-sonnet-4-5") a b c d e := by
  unfold calculate_cost resolvePricing
  rw [h]
  rfl

/-- Witness for C2 at the unknown identifier gpt-4 and usage (1, 2, 3, 4, 5). -/
theorem calculate_cost_unknown_model_fallback_witness :
    pricingLookup (some "gpt-4") = none
    ∧ calculate_cost (some "gpt-4") 1 2 3 4 5
        = calculate_cost (some "claude-sonnet-4-5") 1 2 3 4 5 :=
  ⟨by decide, calculate_cost_unknown_model_fallback (some "gpt-4") (by decide) 1 2 3 4 5⟩

/-- C3: the claim fails on the code. Even with zero tokens in every
category, calculate_cost on the known model google-gemini-3-flash does not
return 0: the body still indexes the absent cache_creation rate and raises
KeyError (embedded as none). -/
theorem calculate_cost_gemini_flash_zero_usage_raises :
    calculate_cost (some "google-gemini-3-flash") 0 0 0 0 0 = none := rfl

/-- C4: the claim fails on the code. For the known model
google-gemini-3-pro no cost is returned at all on non-negative usage — the
body raises KeyError on the absent cache_creation rate (embedded as none) —
so no linearity of the returned cost can hold for every known model. -/
theorem calculate_cost_gemini_pro_returns_no_cost :
    calculate_cost (some "google-gemini-3-pro") 1 0 0 0 0 = none := rfl

/-- C5: the static pricing table satisfies the data-model invariant: every
rate present in every entry is non-negative, and the designated fallback
entry claude-sonnet-4-5 defines all five rate fields. -/
theorem MODEL_PRICING_invariant :
    (∀ p ∈ MODEL_PRICING,
      ∀ r ∈ [p.2.input, p.2.output, p.2.cache_creation, p.2.cache_read, p.2.reasoning],
        ∀ q ∈ r, 0 ≤ q)
    ∧ MODEL_PRICING.lookup "claude-sonnet-4-5" = some claudeSonnet45
    ∧ claudeSonnet45.input.isSome = true
    ∧ claudeSonnet45.output.isSome = true
    ∧ claudeSonnet45.cache_creation.isSome = true
    ∧ claudeSonnet45.cache_read.isSome = true
    ∧ claudeSonnet45.reasoning.isSome = true := by
  refine ⟨?_, rfl, rfl, rfl, rfl, rfl, rfl⟩
  intro p hp r hr q hq
  fin_cases hp <;> fin_cases hr <;>
    simp_all [claudeSonnet45, claudeOpus45, claudeHaiku45, geminiFlash,
      geminiPro] <;> (subst hq; norm_num)

/-- Witness for C5: the first clause applied to the google-gemini-3-flash
entry, its input-rate slot, and the rate held there. -/
theorem MODEL_PRICING_invariant_witness : (0 : ℚ) ≤ 0.00015 :=
  MODEL_PRICING_invariant.1 ("google-gemini-3-flash", geminiFlash)
    (by simp [ MODEL_PRICING]) geminiFlash.input (by simp) 0.00015
    (by simp [ geminiFlash])

/-- C6: with sync disabled, start_sync returns immediately and changes no
state: the controller — in particular its sync_watcher and
local_scripts_dir fields — is returned unchanged, so no destination
directory is recorded and no watcher is constructed. -/
theorem start_sync_disabled_noop (env : SyncEnv) (e : BaseEngineer)
    (h : e.enable_sync = false) : start_sync env e = e := by
  simp [start_sync, h]

/-- Witness for C6 at a concrete environment and a controller with sync
disabled. -/
theorem start_sync_disabled_noop_witness :
    sampleEngineer.enable_sync = false
    ∧ start_sync sampleEnv sampleEngineer = sampleEngineer :=
  ⟨rfl, start_sync_disabled_noop sampleEnv sampleEngineer rfl⟩

/-- C7: stop_sync always clears the held watcher reference — even when the
teardown raised — forwards a teardown error to the notification sink
instead of propagating it, leaves a controller holding no watcher
untouched, and a second call, whatever its teardown outcome, is a no-op. -/
theorem stop_sync_spec (teardown_error retry_error : Option String)
    (e : BaseEngineer) :
    (stop_sync teardown_error e).sync_watcher = none
    ∧ stop_sync retry_error (stop_sync teardown_error e)
        = stop_sync teardown_error e
    ∧ stop_sync teardown_error { e with sync_watcher := none }
        = { e with sync_watcher := none }
    ∧ (stop_sync teardown_error e).ui_events
        = e.ui_events ++
          (match e.sync_watcher, teardown_error with
           | some _, some msg =>
             [UIEvent.syncError ("Failed to stop sync watcher: " ++ msg)]
           | _, _ => []) := by
  obtain ⟨rid, hp, pr, mo, ai, sd, ms, es, sdkv, fr, sw, lsd, ue⟩ := e
  cases sw <;> cases teardown_error <;>
    simp [stop_sync, FileSyncWatcher.stop]

/-- Witness for C7 at a controller holding a running watcher whose
teardown raises with message boom, retried with a clean teardown. -/
theorem stop_sync_spec_witness :
    (stop_sync (some "boom") engineerWithWatcher).sync_watcher = none
    ∧ stop_sync none (stop_sync (some "boom") engineerWithWatcher)
        = stop_sync (some "boom") engineerWithWatcher
    ∧ stop_sync (some "boom") { engineerWithWatcher with sync_watcher := none }
        = { engineerWithWatcher with sync_watcher := none }
    ∧ (stop_sync (some "boom") engineerWithWatcher).ui_events
        = engineerWithWatcher.ui_events ++
          (match engineerWithWatcher.sync_watcher, some "boom" with
           | some _, some msg =>
             [UIEvent.syncError ("Failed to stop sync watcher: " ++ msg)]
           | _, _ => []) :=
  stop_sync_spec (some "boom") none engineerWithWatcher

/-- C8: with sync enabled, start_sync derives a base name from the run goal
text, obtains the destination from the Workspace Allocator probed under
cwd/scripts, records it in local_scripts_dir, appends the start
notification, and holds exactly one started watcher whose source is the
run scripts directory, whose destination is the allocated directory, whose
debounce interval is 500 ms, and whose callbacks feed the notification
sink. -/
theorem start_sync_enabled_spec (env : SyncEnv) (e : BaseEngineer)
    (h : e.enable_sync = true) :
    start_sync env e =
      { e with
        local_scripts_dir := some (env.get_available_directory
          (env.cwd ++ "/scripts") (env.generate_folder_name e.prompt e.sdk)),
        sync_watcher := some
          { source_dir := e.scripts_dir,
            dest_dir := env.get_available_directory (env.cwd ++ "/scripts")
              (env.generate_folder_name e.prompt e.sdk),
            on_sync := fun message => UIEvent.syncFlash message,
            on_error := fun message => UIEvent.syncError message,
            debounce_ms := 500, state := WatcherState.running,
            last_sync := none, sync_count := 0, error_count := 0 },
        ui_events := e.ui_events ++ [UIEvent.syncStarted
          (env.get_available_directory (env.cwd ++ "/scripts")
            (env.generate_folder_name e.prompt e.sdk))] } := by
  simp [start_sync, FileSyncWatcher.start, h]

/-- Witness for C8 at a concrete environment and a controller with sync
enabled. -/
theorem start_sync_enabled_spec_witness :
    start_sync sampleEnv enabledEngineer =
      { enabledEngineer with
        local_scripts_dir := some (sampleEnv.get_available_directory
          (sampleEnv.cwd ++ "/scripts")
          (sampleEnv.generate_folder_name enabledEngineer.prompt
            enabledEngineer.sdk)),
        sync_watcher := some
          { source_dir := enabledEngineer.scripts_dir,
            dest_dir := sampleEnv.get_available_directory
              (sampleEnv.cwd ++ "/scripts")
              (sampleEnv.generate_folder_name enabledEngineer.prompt
                enabledEngineer.sdk),
            on_sync := fun message => UIEvent.syncFlash message,
            on_error := fun message => UIEvent.syncError message,
            debounce_ms := 500, state := WatcherState.running,
            last_sync := none, sync_count := 0, error_count := 0 },
        ui_events := enabledEngineer.ui_events ++ [UIEvent.syncStarted
          (sampleEnv.get_available_directory (sampleEnv.cwd ++ "/scripts")
            (sampleEnv.generate_folder_name enabledEngineer.prompt
              enabledEngineer.sdk))] } :=
  start_sync_enabled_spec sampleEnv enabledEngineer rfl

/-- C9: for every controller, the string _build_analysis_prompt returns
documents the AskUserQuestion tool contract: it contains the sentence
announcing that the tool accepts a list of questions, and the Question
Structure block stating the required question field, the optional header
field, the required options list of label and description entries, and the
multiSelect boolean defaulting to false. -/
theorem build_analysis_prompt_documents_contract (e : BaseEngineer) :
    (∃ a b, _build_analysis_prompt e = a ++ (toolAcceptsLine ++ b))
    ∧ ∃ a b, _build_analysis_prompt e = a ++ (questionStructureBlock ++ b) := by
  have hform : ∃ x, _build_analysis_prompt e
      = x ++ askUserQuestionGuidelines
        ++ tagContextText e.run_id e.har_path.parent e.scripts_dir
            e.message_store.messages_path.parent (pyBoolLower e.is_fresh) := by
    cases h : e.additional_instructions with
    | none =>
      exact ⟨basePromptText e.har_path.str e.prompt e.scripts_dir,
        by simp [_build_analysis_prompt, h]⟩
    | some ai =>
      cases hai : ai.isEmpty
      · exact ⟨basePromptText e.har_path.str e.prompt e.scripts_dir
            ++ ("\n\nAdditional instructions:\n" ++ ai),
          by simp [_build_analysis_prompt, h, hai]⟩
      · exact ⟨basePromptText e.har_path.str e.prompt e.scripts_dir,
          by simp [_build_analysis_prompt, h, hai]⟩
  obtain ⟨x, hx⟩ := hform
  unfold askUserQuestionGuidelines at hx
  constructor
  · refine ⟨x ++ askGuidelinesPre,
      askGuidelinesMid ++ (questionStructureBlock ++ (askGuidelinesPost
        ++ tagContextText e.run_id e.har_path.parent e.scripts_dir
            e.message_store.messages_path.parent (pyBoolLower e.is_fresh))), ?_⟩
    rw [hx]
    simp [String.append_assoc]
  · refine ⟨x ++ (askGuidelinesPre ++ (toolAcceptsLine ++ askGuidelinesMid)),
      askGuidelinesPost
        ++ tagContextText e.run_id e.har_path.parent e.scripts_dir
            e.message_store.messages_path.parent (pyBoolLower e.is_fresh), ?_⟩
    rw [hx]
    simp [String.append_assoc]

/-- Witness for C9 at a concrete controller. -/
theorem build_analysis_prompt_documents_contract_witness :
    (∃ a b, _build_analysis_prompt sampleEngineer
        = a ++ (toolAcceptsLine ++ b))
    ∧ ∃ a b, _build_analysis_prompt sampleEngineer
        = a ++ (questionStructureBlock ++ b) :=
  build_analysis_prompt_documents_contract sampleEngineer

/-- C10: get_sync_status returns none exactly when no watcher is held —
before start_sync, with sync disabled, or after stop_sync cleared the
reference — and otherwise the held watcher status snapshot, and it leaves
the controller state unchanged. -/
theorem get_sync_status_spec (e : BaseEngineer) :
    get_sync_status e = (e.sync_watcher.map FileSyncWatcher.get_status, e)
    ∧ ((get_sync_status e).1 = none ↔ e.sync_watcher = none) := by
  obtain ⟨rid, hp, pr, mo, ai, sd, ms, es, sdkv, fr, sw, lsd, ue⟩ := e
  cases sw <;> simp [get_sync_status]

/-- Witness for C10 at a controller holding a running watcher. -/
theorem get_sync_status_spec_witness :
    get_sync_status engineerWithWatcher
      = (engineerWithWatcher.sync_watcher.map FileSyncWatcher.get_status,
         engineerWithWatcher)
    ∧ ((get_sync_status engineerWithWatcher).1 = none
        ↔ engineerWithWatcher.sync_watcher = none) :=
  get_sync_status_spec engineerWithWatcher
